import Mathlib

/-!
Shallow embedding of the CodAlarm firmware core (src/CodAlarm/main.cpp) and
proofs about its state machine, buzzer controller and interrupt handlers.

The repository ships only main.cpp; the headers core/Clock.h, core/CodAlarm.h
and core/GUI.h (the TimeValue class, the DeviceState and Mode enums, the IO
listener dispatch, and the N_* tick constants) are not under src/.  Those
pieces are modelled from the specification and marked `Modelled from the
spec:` in their doc comments.  Everything else is translated statement by
statement from main.cpp, including its three assignment-instead-of-equality
guards (lines 155, 236, 277) and the effect-free comparison at line 213.
-/

namespace CodAlarm

/-- Modelled from the spec: §3 device mode enum {IDLE, SET_ALARM1, SET_ALARM2,
SET_CLOCK1, SET_CLOCK2, RING} declared in the missing core/CodAlarm.h.  The
order is the spec's order. -/
inductive DeviceState
  | IDLE
  | SET_ALARM1
  | SET_ALARM2
  | SET_CLOCK1
  | SET_CLOCK2
  | RING
  deriving DecidableEq

/-- Modelled from the spec: the C++ integer value of each enumerator.  The
declaration carries no explicit initializers in the spec, so the C++ default
applies: consecutive values starting at 0.  These values decide the truth
value of the source's assignment-guards `if (ca.state = X)`. -/
def DeviceState.toNat : DeviceState → Nat
  | .IDLE => 0
  | .SET_ALARM1 => 1
  | .SET_ALARM2 => 2
  | .SET_CLOCK1 => 3
  | .SET_CLOCK2 => 4
  | .RING => 5

/-- Truthiness of a DeviceState value when a C++ `if` condition receives it
(nonzero means true), as happens after the assignment-guards. -/
def DeviceState.truthy (d : DeviceState) : Bool :=
  d.toNat != 0

/-- Modelled from the spec: §3 display mode enum {H12, H24}. -/
inductive Mode
  | H12
  | H24
  deriving DecidableEq

/-- Modelled from the spec: §3 TimeValue {hour 0..23, minute 0..59,
second 0..59}, always normalized; declared in the missing core/Clock.h.
Stored in 24-hour form (the 12-hour presentation is display formatting). -/
structure TimeValue where
  hour : Nat
  minute : Nat
  second : Nat
  deriving DecidableEq

/-- Modelled from the spec: §3 increment wraps with carry — second 59→0
increments minute, minute 59→0 increments hour, hour 23→0.  One tick is one
elapsed second (Clock.tick). -/
def TimeValue.tick (t : TimeValue) : TimeValue :=
  if t.second < 59 then { t with second := t.second + 1 }
  else if t.minute < 59 then { t with second := 0, minute := t.minute + 1 }
  else { hour := (t.hour + 1) % 24, minute := 0, second := 0 }

/-- Modelled from the spec: setMin adds n minutes (n may be negative), wrapping
with carry into the hour and the hour wrapping mod 24; the seconds field is
untouched.  Used by pressUp/pressDown (±1) and pressSnooze (+5). -/
def TimeValue.setMin (t : TimeValue) (n : Int) : TimeValue :=
  let total : Int := ((t.hour * 60 + t.minute : Nat) : Int)
  let total' : Int := ((total + n) % 1440 + 1440) % 1440
  { hour := total'.toNat / 60, minute := total'.toNat % 60, second := t.second }

/-- Modelled from the spec: setHour adds n hours wrapping mod 24. -/
def TimeValue.setHour (t : TimeValue) (n : Int) : TimeValue :=
  { t with hour := (((t.hour : Int) + n) % 24 + 24).toNat % 24 }

/-- Modelled from the spec: sync copies the other TimeValue's value
(`ca.snooze.sync(ca.alarm)` seeds Snooze from Alarm). -/
def TimeValue.sync (_t other : TimeValue) : TimeValue :=
  other

/-- From src/CodAlarm/main.cpp line 9: `#define BACKLIGHT_OFF -1`. -/
def BACKLIGHT_OFF : Int := -1

/-- From src/CodAlarm/main.cpp line 10: `#define BUZZER_OFF -1`. -/
def BUZZER_OFF : Int := -1

/-- Modelled from the spec: the long ring-pattern phase length in fast ticks
(N_BUZZER_LONG of the missing core header).  The spec fixes no number, only
that it is a positive tick count; the proofs use only its identity. -/
def N_BUZZER_LONG : Int := 100

/-- Modelled from the spec: the short acknowledgment-beep length in fast ticks
(N_BUZZER_SHORT of the missing core header). -/
def N_BUZZER_SHORT : Int := 5

/-- Modelled from the spec: the backlight timeout in fast ticks (N_BACKLIGHT
of the missing core header). -/
def N_BACKLIGHT : Int := 500

/-- The fields of the global CodAlarm object `ca` that main.cpp reads and
writes: device state, display mode, snoozed flag and the three TimeValues.
The class itself is declared in the missing core/CodAlarm.h; the field set is
exactly the one main.cpp uses and §3 lists. -/
structure CA where
  state : DeviceState
  mode : Mode
  snoozed : Bool
  clock : TimeValue
  alarm : TimeValue
  snooze : TimeValue
  deriving DecidableEq

/-- The mutable state of main.cpp: the global `ca`, the file-scope counters
and flag of lines 98–104, the Timer2 compare-interrupt enable bit that
startBuzzer/stopBuzzer set and clear (the buzzer-pulse source armed bit), and
the backlight output driven through `ca.io.setLight`. -/
structure Sys where
  ca : CA
  backlight_counter : Int
  buzzer_counter : Int
  buzzer_state : Bool
  buzzerArmed : Bool
  light : Bool
  deriving DecidableEq

/-- Lines 397–410.  `startBuzzer`: while RINGing the countdown is reset to
N_BUZZER_LONG only when exhausted (`buzzer_counter <= 0`); otherwise (not
ringing) it is set to N_BUZZER_SHORT; in every case the Timer2 interrupt is
enabled (buzzer-pulse source armed). -/
def startBuzzer (s : Sys) : Sys :=
  let s' :=
    if s.ca.state = .RING then
      if s.buzzer_counter ≤ 0 then { s with buzzer_counter := N_BUZZER_LONG } else s
    else
      { s with buzzer_counter := N_BUZZER_SHORT }
  { s' with buzzerArmed := true }

/-- Lines 412–415.  `stopBuzzer` disables the Timer2 interrupt. -/
def stopBuzzer (s : Sys) : Sys :=
  { s with buzzerArmed := false }

/-- Lines 267–273.  Generic short press: backlight on, backlight countdown
refreshed, then startBuzzer. -/
def pressButton (s : Sys) : Sys :=
  startBuzzer { s with light := true, backlight_counter := N_BACKLIGHT }

/-- Lines 275–284.  Line 277 reads `if (ca.state = RING)`: an assignment, not
an equality test.  The state is first overwritten with RING and the condition
is the truthiness of RING's enumerator value (5, hence true), so the body
always runs: state IDLE, snoozed cleared, buzzer stopped. -/
def pressStopAlarm (s : Sys) : Sys :=
  let s' := { s with ca := { s.ca with state := .RING } }
  if DeviceState.truthy .RING then
    stopBuzzer { s' with ca := { s'.ca with state := .IDLE, snoozed := false } }
  else s'

/-- Lines 286–293.  Short press of "Set Alarm": SET_ALARM1 → SET_ALARM2,
any other state → IDLE (equality guard, catch-all else). -/
def pressSetAlarm (s : Sys) : Sys :=
  if s.ca.state = .SET_ALARM1 then { s with ca := { s.ca with state := .SET_ALARM2 } }
  else { s with ca := { s.ca with state := .IDLE } }

/-- Lines 295–300.  Long press of "Set Alarm": IDLE → SET_ALARM1, otherwise
no-op. -/
def longSetAlarm (s : Sys) : Sys :=
  if s.ca.state = .IDLE then { s with ca := { s.ca with state := .SET_ALARM1 } }
  else s

/-- Lines 302–310.  Short press of "Set Clock": SET_CLOCK1 → SET_CLOCK2,
any other state → IDLE (equality guard, catch-all else). -/
def pressSetClock (s : Sys) : Sys :=
  if s.ca.state = .SET_CLOCK1 then { s with ca := { s.ca with state := .SET_CLOCK2 } }
  else { s with ca := { s.ca with state := .IDLE } }

/-- Lines 312–317.  Long press of "Set Clock": IDLE → SET_CLOCK1, otherwise
no-op. -/
def longSetClock (s : Sys) : Sys :=
  if s.ca.state = .IDLE then { s with ca := { s.ca with state := .SET_CLOCK1 } }
  else s

/-- Lines 319–341.  "Up": edits the field selected by the editing state;
no-op elsewhere. -/
def pressUp (s : Sys) : Sys :=
  match s.ca.state with
  | .SET_ALARM1 => { s with ca := { s.ca with alarm := s.ca.alarm.setHour 1 } }
  | .SET_ALARM2 => { s with ca := { s.ca with alarm := s.ca.alarm.setMin 1 } }
  | .SET_CLOCK1 => { s with ca := { s.ca with clock := s.ca.clock.setHour 1 } }
  | .SET_CLOCK2 => { s with ca := { s.ca with clock := s.ca.clock.setMin 1 } }
  | _ => s

/-- Lines 343–365.  "Down": symmetric to pressUp. -/
def pressDown (s : Sys) : Sys :=
  match s.ca.state with
  | .SET_ALARM1 => { s with ca := { s.ca with alarm := s.ca.alarm.setHour (-1) } }
  | .SET_ALARM2 => { s with ca := { s.ca with alarm := s.ca.alarm.setMin (-1) } }
  | .SET_CLOCK1 => { s with ca := { s.ca with clock := s.ca.clock.setHour (-1) } }
  | .SET_CLOCK2 => { s with ca := { s.ca with clock := s.ca.clock.setMin (-1) } }
  | _ => s

/-- Lines 367–373.  "Mode": toggles H12/H24. -/
def pressMode (s : Sys) : Sys :=
  if s.ca.mode = .H12 then { s with ca := { s.ca with mode := .H24 } }
  else { s with ca := { s.ca with mode := .H12 } }

/-- Lines 375–391.  "Snooze": only while RINGing; first press sets snoozed,
seeds Snooze from Alarm and adds 5 minutes, later presses add 5 more minutes;
state always returns to IDLE. -/
def pressSnooze (s : Sys) : Sys :=
  if s.ca.state = .RING then
    let s' :=
      if ¬ s.ca.snoozed then
        { s with ca :=
            { s.ca with
                snoozed := true,
                snooze := (s.ca.snooze.sync s.ca.alarm).setMin 5 } }
      else
        { s with ca := { s.ca with snooze := s.ca.snooze.setMin 5 } }
    { s' with ca := { s'.ca with state := .IDLE } }
  else s

/-- Lines 183–221, the Timer0 overflow ISR without the long-press sampling
(countCheckLong lives in the missing IO class; long-press delivery is a
separate event below).  Backlight countdown first, then the buzzer countdown.
On buzzer expiry while RINGing, line 213 reads `buzzer_state != buzzer_state;`
— a comparison whose result is discarded, so buzzer_state is NOT toggled; the
translation therefore performs no write there. -/
def isrTimer0Ovf (s : Sys) : Sys :=
  let s' :=
    if s.backlight_counter ≠ BACKLIGHT_OFF then
      if s.backlight_counter > 0 then
        { s with backlight_counter := s.backlight_counter - 1 }
      else
        { s with light := false, backlight_counter := BACKLIGHT_OFF }
    else s
  if s'.buzzer_counter ≠ BUZZER_OFF then
    if s'.buzzer_counter > 0 then
      { s' with buzzer_counter := s'.buzzer_counter - 1 }
    else
      if s'.ca.state = .RING then
        if s'.buzzer_state then
          startBuzzer s'
        else
          stopBuzzer { s' with buzzer_counter := N_BUZZER_LONG }
      else
        stopBuzzer { s' with buzzer_counter := BUZZER_OFF }
  else s'

/-- Lines 229–252, the Timer1 compare ISR (1-second tick); `sw` is the value
`ca.io.getSwitch()` reads.  The clock ticks, then line 236 reads
`if (ca.state = IDLE)`: an assignment, not an equality test — the state is
overwritten with IDLE and the condition is the truthiness of IDLE's enumerator
value (0, hence false), so the alarm/snooze comparison body is dead code. -/
def isrTimer1Compa (sw : Bool) (s : Sys) : Sys :=
  let s' := { s with ca := { s.ca with clock := s.ca.clock.tick } }
  if sw then
    let s'' := { s' with ca := { s'.ca with state := .IDLE } }
    if DeviceState.truthy .IDLE then
      if s''.ca.snoozed then
        if s''.ca.snooze = s''.ca.clock then
          startBuzzer { s'' with ca := { s''.ca with state := .RING } }
        else s''
      else
        if s''.ca.alarm = s''.ca.clock then
          startBuzzer { s'' with ca := { s''.ca with state := .RING } }
        else s''
    else s''
  else s'

/-- Lines 150–161, the foreground loop body taken when `!ca.io.getSwitch()`
(switch set to "Alarm off").  Line 155 reads `if (ca.state = RING)`: an
assignment; the state is overwritten with RING and the condition is RING's
truthiness (true), so the body always runs: IDLE, snoozed cleared, buzzer
stopped. -/
def mainLoopSwitchOff (s : Sys) : Sys :=
  let s' := { s with ca := { s.ca with state := .RING } }
  if DeviceState.truthy .RING then
    stopBuzzer { s' with ca := { s'.ca with state := .IDLE, snoozed := false } }
  else s'

/-- The logical buttons of lines 137–143.  SET_CLOCK is the same physical
button as SET_ALARM (registrations at lines 137–138 and 145–146). -/
inductive Button
  | SET_ALARM
  | UP
  | DOWN
  | MODE
  | SNOOZE
  | STOP_ALARM
  deriving DecidableEq

/-- Modelled from the spec: §4.4 — all listeners registered for a button run,
in registration order.  Registration order from main.cpp lines 135–143: the
generic pressButton first, then the per-button short-press handlers; the
SET_ALARM button carries pressSetAlarm then pressSetClock (lines 137–138). -/
def dispatchShort : Button → Sys → Sys
  | .SET_ALARM, s => pressSetClock (pressSetAlarm (pressButton s))
  | .UP, s => pressUp (pressButton s)
  | .DOWN, s => pressDown (pressButton s)
  | .MODE, s => pressMode (pressButton s)
  | .SNOOZE, s => pressSnooze (pressButton s)
  | .STOP_ALARM, s => pressStopAlarm (pressButton s)

/-- Modelled from the spec: §4.4 registration-order dispatch of long-press
listeners; lines 145–146 register longSetAlarm then longSetClock on the
SET_ALARM button, and no other button has long listeners. -/
def dispatchLong : Button → Sys → Sys
  | .SET_ALARM, s => longSetClock (longSetAlarm s)
  | _, s => s

/-- The events the firmware reacts to: a completed short press, a completed
long press, a foreground-loop iteration observing the on/off switch off, the
1-second tick (with the switch level it samples), and the fast Timer0 tick. -/
inductive Event
  | shortPress (b : Button)
  | longPress (b : Button)
  | switchOff
  | secondTick (sw : Bool)
  | fastTick
  deriving DecidableEq

/-- One event processed against the whole firmware state. -/
def step : Event → Sys → Sys
  | .shortPress b, s => dispatchShort b s
  | .longPress b, s => dispatchLong b s
  | .switchOff, s => mainLoopSwitchOff s
  | .secondTick sw, s => isrTimer1Compa sw s
  | .fastTick, s => isrTimer0Ovf s

/-- A finite event trace processed left to right. -/
def run (evs : List Event) (s : Sys) : Sys :=
  evs.foldl (fun acc e => step e acc) s

/-- Modelled from the spec: §3 lifecycle start-up defaults (clock 00:00:00,
alarm zero, IDLE, H24, not snoozed) together with the initializers of
main.cpp lines 98–104 (both counters at the off sentinel, buzzer_state
false); the buzzer-pulse interrupt starts disabled and the backlight off. -/
def initSys : Sys :=
  { ca := { state := .IDLE, mode := .H24, snoozed := false,
            clock := ⟨0, 0, 0⟩, alarm := ⟨0, 0, 0⟩, snooze := ⟨0, 0, 0⟩ },
    backlight_counter := BACKLIGHT_OFF,
    buzzer_counter := BUZZER_OFF,
    buzzer_state := false,
    buzzerArmed := false,
    light := false }

/-- A sample firmware state sitting in a given device state: start-up values
with only the state field replaced.  Used for concrete evaluations. -/
def sampleAt (d : DeviceState) : Sys :=
  { initSys with ca := { initSys.ca with state := d } }

/-- An IDLE, not-snoozed state one second before the alarm: Clock 06:29:59,
Alarm 06:30:00, so the next tick makes Clock equal Alarm. -/
def sampleC1 : Sys :=
  { sampleAt .IDLE with ca :=
      { (sampleAt .IDLE).ca with clock := ⟨6, 29, 59⟩, alarm := ⟨6, 30, 0⟩ } }

/-- A RINGing state whose buzzer countdown just reached zero, with the pulse
source armed and the pattern phase at its start-up value false. -/
def sampleRingExpiry : Sys :=
  { sampleAt .RING with buzzer_counter := 0, buzzerArmed := true }

/-- A RINGing, not-yet-snoozed state with Alarm 06:30:00. -/
def sampleRingFresh : Sys :=
  { sampleAt .RING with ca := { (sampleAt .RING).ca with alarm := ⟨6, 30, 0⟩ } }

/-- A RINGing state that was already snoozed once: Snooze 06:35:00. -/
def sampleRingSnoozed : Sys :=
  { sampleAt .RING with ca :=
      { (sampleAt .RING).ca with snoozed := true, alarm := ⟨6, 30, 0⟩,
                                 snooze := ⟨6, 35, 0⟩ } }

/-- The DeviceState × event pairs carrying an explicit transition row in the
§4.1 table, with the shared physical button: rows naming the "Set Alarm" or
"Set Clock" button refer to the SET_ALARM button, and both long-press rows to
its long press.  The two tick-match rows are the pair (IDLE, 1-second tick
with the switch on); the mode-toggle row lists every state.  Pairs outside
this table are the claim's "unlisted" pairs. -/
def listedPair : DeviceState → Event → Bool
  | .IDLE, .longPress .SET_ALARM => true
  | .SET_ALARM1, .shortPress .SET_ALARM => true
  | .SET_ALARM2, .shortPress .SET_ALARM => true
  | .SET_CLOCK1, .shortPress .SET_ALARM => true
  | .SET_CLOCK2, .shortPress .SET_ALARM => true
  | .SET_ALARM1, .shortPress .UP => true
  | .SET_ALARM1, .shortPress .DOWN => true
  | .SET_ALARM2, .shortPress .UP => true
  | .SET_ALARM2, .shortPress .DOWN => true
  | .SET_CLOCK1, .shortPress .UP => true
  | .SET_CLOCK1, .shortPress .DOWN => true
  | .SET_CLOCK2, .shortPress .UP => true
  | .SET_CLOCK2, .shortPress .DOWN => true
  | .IDLE, .secondTick true => true
  | .RING, .shortPress .STOP_ALARM => true
  | .RING, .shortPress .SNOOZE => true
  | .RING, .switchOff => true
  | _, .shortPress .MODE => true
  | _, _ => false

/-- The events whose handlers force the device state to IDLE even from states
the §4.1 table does not pair them with: the shared Set Alarm/Set Clock short
press (both catch-all elses), the Stop Alarm press and the switch-off poll
(assignment guards on RING), and the 1-second tick with the switch on
(assignment guard on IDLE). -/
def stateExceptional : Event → Bool
  | .shortPress .SET_ALARM => true
  | .shortPress .STOP_ALARM => true
  | .switchOff => true
  | .secondTick true => true
  | _ => false

/-! Helper lemmas about the embedded handlers. -/

lemma startBuzzer_ca (s : Sys) : (startBuzzer s).ca = s.ca := by
  unfold startBuzzer
  split_ifs <;> rfl

lemma startBuzzer_bs (s : Sys) : (startBuzzer s).buzzer_state = s.buzzer_state := by
  unfold startBuzzer
  split_ifs <;> rfl

lemma startBuzzer_armed (s : Sys) : (startBuzzer s).buzzerArmed = true := by
  unfold startBuzzer
  split_ifs <;> rfl

lemma stopBuzzer_ca (s : Sys) : (stopBuzzer s).ca = s.ca := rfl

lemma pressButton_ca (s : Sys) : (pressButton s).ca = s.ca := by
  simp [pressButton, startBuzzer_ca]

lemma pressButton_bs (s : Sys) : (pressButton s).buzzer_state = s.buzzer_state := by
  simp [pressButton, startBuzzer_bs]

lemma pressSetAlarm_state (s : Sys) :
    (pressSetAlarm s).ca.state =
      if s.ca.state = .SET_ALARM1 then DeviceState.SET_ALARM2 else DeviceState.IDLE := by
  unfold pressSetAlarm
  split_ifs <;> rfl

lemma pressSetClock_state (s : Sys) :
    (pressSetClock s).ca.state =
      if s.ca.state = .SET_CLOCK1 then DeviceState.SET_CLOCK2 else DeviceState.IDLE := by
  unfold pressSetClock
  split_ifs <;> rfl

lemma pressUp_state (s : Sys) : (pressUp s).ca.state = s.ca.state := by
  unfold pressUp
  split <;> rfl

lemma pressDown_state (s : Sys) : (pressDown s).ca.state = s.ca.state := by
  unfold pressDown
  split <;> rfl

lemma pressMode_state (s : Sys) : (pressMode s).ca.state = s.ca.state := by
  unfold pressMode
  split_ifs <;> rfl

lemma pressSnooze_state (s : Sys) :
    (pressSnooze s).ca.state =
      if s.ca.state = .RING then DeviceState.IDLE else s.ca.state := by
  unfold pressSnooze
  split_ifs <;> rfl

lemma pressStopAlarm_eq (s : Sys) :
    pressStopAlarm s =
      { s with ca := { s.ca with state := .IDLE, snoozed := false },
               buzzerArmed := false } := rfl

lemma mainLoopSwitchOff_eq (s : Sys) :
    mainLoopSwitchOff s =
      { s with ca := { s.ca with state := .IDLE, snoozed := false },
               buzzerArmed := false } := rfl

lemma isrTimer1Compa_true_eq (s : Sys) :
    isrTimer1Compa true s =
      { s with ca := { s.ca with clock := s.ca.clock.tick, state := .IDLE } } := rfl

lemma isrTimer1Compa_false_eq (s : Sys) :
    isrTimer1Compa false s =
      { s with ca := { s.ca with clock := s.ca.clock.tick } } := rfl

lemma dispatchShort_SET_ALARM_state (s : Sys) :
    (dispatchShort .SET_ALARM s).ca.state = DeviceState.IDLE := by
  simp only [dispatchShort, pressSetClock_state, pressSetAlarm_state, pressButton_ca]
  split_ifs <;> simp_all

lemma dispatchShort_STOP_ALARM_state (s : Sys) :
    (dispatchShort .STOP_ALARM s).ca.state = DeviceState.IDLE := by
  simp [dispatchShort, pressStopAlarm_eq]

lemma dispatchLong_SET_ALARM_state (s : Sys) :
    (dispatchLong .SET_ALARM s).ca.state =
      if s.ca.state = .IDLE then DeviceState.SET_ALARM1 else s.ca.state := by
  unfold dispatchLong longSetClock longSetAlarm
  split_ifs <;> simp_all

lemma isrTimer0Ovf_ca (s : Sys) : (isrTimer0Ovf s).ca = s.ca := by
  simp only [isrTimer0Ovf]
  split_ifs <;> simp_all [startBuzzer_ca, stopBuzzer]

lemma isrTimer0Ovf_bs (s : Sys) : (isrTimer0Ovf s).buzzer_state = s.buzzer_state := by
  simp only [isrTimer0Ovf]
  split_ifs <;> simp_all [startBuzzer_bs, stopBuzzer]

lemma pressUp_bs (s : Sys) : (pressUp s).buzzer_state = s.buzzer_state := by
  unfold pressUp
  split <;> rfl

lemma pressDown_bs (s : Sys) : (pressDown s).buzzer_state = s.buzzer_state := by
  unfold pressDown
  split <;> rfl

lemma pressMode_bs (s : Sys) : (pressMode s).buzzer_state = s.buzzer_state := by
  unfold pressMode
  split_ifs <;> rfl

lemma pressSetAlarm_bs (s : Sys) : (pressSetAlarm s).buzzer_state = s.buzzer_state := by
  unfold pressSetAlarm
  split_ifs <;> rfl

lemma pressSetClock_bs (s : Sys) : (pressSetClock s).buzzer_state = s.buzzer_state := by
  unfold pressSetClock
  split_ifs <;> rfl

lemma pressSnooze_bs (s : Sys) : (pressSnooze s).buzzer_state = s.buzzer_state := by
  unfold pressSnooze
  split_ifs <;> rfl

lemma longSetAlarm_bs (s : Sys) : (longSetAlarm s).buzzer_state = s.buzzer_state := by
  unfold longSetAlarm
  split_ifs <;> rfl

lemma longSetClock_bs (s : Sys) : (longSetClock s).buzzer_state = s.buzzer_state := by
  unfold longSetClock
  split_ifs <;> rfl

lemma step_bs (e : Event) (s : Sys) : (step e s).buzzer_state = s.buzzer_state := by
  cases e with
  | shortPress b =>
    cases b <;>
      simp [step, dispatchShort, pressSnooze_bs, pressStopAlarm_eq, pressSetAlarm_bs,
        pressSetClock_bs, pressUp_bs, pressDown_bs, pressMode_bs, pressButton_bs]
  | longPress b =>
    cases b <;> simp [step, dispatchLong, longSetAlarm_bs, longSetClock_bs]
  | switchOff => simp [step, mainLoopSwitchOff_eq]
  | secondTick sw =>
    cases sw
    · simp [step, isrTimer1Compa_false_eq]
    · simp [step, isrTimer1Compa_true_eq]
  | fastTick => simpa [step] using isrTimer0Ovf_bs s

lemma run_bs (evs : List Event) : ∀ s : Sys, (run evs s).buzzer_state = s.buzzer_state := by
  induction evs with
  | nil => intro s; rfl
  | cons e evs ih =>
    intro s
    have h : run (e :: evs) s = run evs (step e s) := rfl
    rw [h, ih (step e s), step_bs]

lemma step_keeps_off_set_clock (e : Event) (s : Sys)
    (h1 : s.ca.state ≠ .SET_CLOCK1) (h2 : s.ca.state ≠ .SET_CLOCK2) :
    (step e s).ca.state ≠ DeviceState.SET_CLOCK1 ∧
      (step e s).ca.state ≠ DeviceState.SET_CLOCK2 := by
  cases e with
  | shortPress b =>
    cases b with
    | SET_ALARM => simp [step, dispatchShort_SET_ALARM_state]
    | UP => simp [step, dispatchShort, pressUp_state, pressButton_ca, h1, h2]
    | DOWN => simp [step, dispatchShort, pressDown_state, pressButton_ca, h1, h2]
    | MODE => simp [step, dispatchShort, pressMode_state, pressButton_ca, h1, h2]
    | SNOOZE =>
      simp only [step, dispatchShort, pressSnooze_state, pressButton_ca]
      split_ifs <;> simp_all
    | STOP_ALARM => simp [step, dispatchShort_STOP_ALARM_state]
  | longPress b =>
    cases b with
    | SET_ALARM =>
      simp only [step, dispatchLong_SET_ALARM_state]
      split_ifs <;> simp_all
    | UP => exact ⟨h1, h2⟩
    | DOWN => exact ⟨h1, h2⟩
    | MODE => exact ⟨h1, h2⟩
    | SNOOZE => exact ⟨h1, h2⟩
    | STOP_ALARM => exact ⟨h1, h2⟩
  | switchOff => simp [step, mainLoopSwitchOff_eq]
  | secondTick sw =>
    cases sw
    · simpa [step, isrTimer1Compa_false_eq] using ⟨h1, h2⟩
    · simp [step, isrTimer1Compa_true_eq]
  | fastTick => simpa [step, isrTimer0Ovf_ca] using ⟨h1, h2⟩

lemma run_keeps_off_set_clock (evs : List Event) :
    ∀ s : Sys, s.ca.state ≠ .SET_CLOCK1 → s.ca.state ≠ .SET_CLOCK2 →
      (run evs s).ca.state ≠ DeviceState.SET_CLOCK1 ∧
        (run evs s).ca.state ≠ DeviceState.SET_CLOCK2 := by
  induction evs with
  | nil => intro s h1 h2; exact ⟨h1, h2⟩
  | cons e evs ih =>
    intro s h1 h2
    have h := step_keeps_off_set_clock e s h1 h2
    have hr : run (e :: evs) s = run evs (step e s) := rfl
    rw [hr]
    exact ih (step e s) h.1 h.2

/-! Claim theorems. -/

/-- C1: the claim says a 1-second tick that makes Clock equal Alarm while
IDLE, switch on and not snoozed moves the state to RING and arms the buzzer
with the long pattern.  The code does neither: line 236's guard is the
assignment `ca.state = IDLE`, whose value (IDLE's enumerator, 0) is false, so
the match body is dead and the handler leaves the state IDLE with the buzzer
interrupt and countdown untouched. -/
theorem tick_match_never_rings (s : Sys) (_h1 : s.ca.state = DeviceState.IDLE)
    (_h2 : s.ca.snoozed = false) (_h3 : s.ca.clock.tick = s.ca.alarm) :
    (isrTimer1Compa true s).ca.state ≠ DeviceState.RING ∧
      (isrTimer1Compa true s).buzzerArmed = s.buzzerArmed ∧
      (isrTimer1Compa true s).buzzer_counter = s.buzzer_counter := by
  have h := isrTimer1Compa_true_eq s
  refine ⟨?_, ?_, ?_⟩ <;> simp [h]

/-- C1 witness: the scenario of the claim at Clock 06:29:59, Alarm 06:30:00. -/
theorem tick_match_never_rings_witness :
    (sampleC1.ca.state = DeviceState.IDLE ∧ sampleC1.ca.snoozed = false ∧
      sampleC1.ca.clock.tick = sampleC1.ca.alarm) ∧
    ((isrTimer1Compa true sampleC1).ca.state ≠ DeviceState.RING ∧
      (isrTimer1Compa true sampleC1).buzzerArmed = sampleC1.buzzerArmed ∧
      (isrTimer1Compa true sampleC1).buzzer_counter = sampleC1.buzzer_counter) :=
  ⟨by decide, tick_match_never_rings sampleC1 (by decide) (by decide) (by decide)⟩

/-- C2: the claim says the guards of the three guarded transitions are pure
equality tests that leave the state unchanged and are true exactly on
equality.  All three (main.cpp lines 155, 236, 277) are assignments: the Stop
Alarm handler invoked in SET_ALARM1 runs its RING-only body anyway (state to
IDLE, buzzer disarmed); the switch-off poll in SET_CLOCK1 does the same; and
evaluating the tick handler's IDLE guard in state RING itself changes the
state. -/
theorem guards_are_assignments :
    ((pressStopAlarm { sampleAt .SET_ALARM1 with buzzerArmed := true }).ca.state =
        DeviceState.IDLE ∧
      (pressStopAlarm { sampleAt .SET_ALARM1 with buzzerArmed := true }).buzzerArmed = false ∧
      (sampleAt .SET_ALARM1).ca.state ≠ DeviceState.RING) ∧
    ((mainLoopSwitchOff (sampleAt .SET_CLOCK1)).ca.state = DeviceState.IDLE ∧
      (sampleAt .SET_CLOCK1).ca.state ≠ DeviceState.RING) ∧
    ((isrTimer1Compa true (sampleAt .RING)).ca.state ≠ (sampleAt .RING).ca.state) := by
  decide

/-- C3 counterexample: the pair (RING, short press of "Set Alarm") is not a
row of the §4.1 table, yet processing it changes the state (to IDLE), so the
claim that every unlisted pair leaves the state unchanged is false. -/
theorem unlisted_pair_changes_state :
    listedPair (sampleAt .RING).ca.state (.shortPress .SET_ALARM) = false ∧
      (step (.shortPress .SET_ALARM) (sampleAt .RING)).ca.state ≠
        (sampleAt .RING).ca.state := by
  decide

/-- C3 amended: every DeviceState × event pair not listed in the §4.1 table
leaves the device state unchanged, except that four events force the state to
IDLE from every unlisted state: a short press of the shared Set Alarm/Set
Clock button (both handlers' catch-all else branches), a short press of Stop
Alarm and a switch-off poll (assignment guards on RING, always true), and a
1-second tick with the switch on (assignment guard on IDLE). -/
theorem unlisted_pair_state_outcome (s : Sys) (e : Event)
    (h : listedPair s.ca.state e = false) :
    (step e s).ca.state =
      (if stateExceptional e then DeviceState.IDLE else s.ca.state) := by
  cases e with
  | shortPress b =>
    cases b with
    | SET_ALARM => simpa [stateExceptional] using dispatchShort_SET_ALARM_state s
    | UP => simp [step, stateExceptional, dispatchShort, pressUp_state, pressButton_ca]
    | DOWN => simp [step, stateExceptional, dispatchShort, pressDown_state, pressButton_ca]
    | MODE =>
      exfalso
      cases hs : s.ca.state <;> rw [hs] at h <;> simp [listedPair] at h
    | SNOOZE =>
      have hne : s.ca.state ≠ .RING := by
        intro hr
        rw [hr] at h
        simp [listedPair] at h
      simp [step, stateExceptional, dispatchShort, pressSnooze_state, pressButton_ca, hne]
    | STOP_ALARM => simpa [stateExceptional] using dispatchShort_STOP_ALARM_state s
  | longPress b =>
    cases b with
    | SET_ALARM =>
      have hne : s.ca.state ≠ .IDLE := by
        intro hi
        rw [hi] at h
        simp [listedPair] at h
      simp [step, stateExceptional, dispatchLong_SET_ALARM_state, hne]
    | UP => simp [step, stateExceptional, dispatchLong]
    | DOWN => simp [step, stateExceptional, dispatchLong]
    | MODE => simp [step, stateExceptional, dispatchLong]
    | SNOOZE => simp [step, stateExceptional, dispatchLong]
    | STOP_ALARM => simp [step, stateExceptional, dispatchLong]
  | switchOff => simp [step, stateExceptional, mainLoopSwitchOff_eq]
  | secondTick sw =>
    cases sw
    · simp [step, stateExceptional, isrTimer1Compa_false_eq]
    · simp [step, stateExceptional, isrTimer1Compa_true_eq]
  | fastTick => simp [step, stateExceptional, isrTimer0Ovf_ca]

/-- C3 amended witness: (RING, short press of "Up") is unlisted, not one of
the four exceptional events, and indeed leaves the state RING. -/
theorem unlisted_pair_state_outcome_witness :
    listedPair (sampleAt .RING).ca.state (.shortPress .UP) = false ∧
      (step (.shortPress .UP) (sampleAt .RING)).ca.state =
        (if stateExceptional (.shortPress .UP) then DeviceState.IDLE
         else (sampleAt .RING).ca.state) :=
  ⟨by decide, unlisted_pair_state_outcome (sampleAt .RING) (.shortPress .UP) (by decide)⟩

/-- C4 counterexample: from SET_ALARM1, a short press of the "Set Alarm"
physical button does not end in SET_ALARM2. -/
theorem set_alarm1_press_not_set_alarm2 :
    (step (.shortPress .SET_ALARM) (sampleAt .SET_ALARM1)).ca.state ≠
      DeviceState.SET_ALARM2 := by
  decide

/-- C4 amended: from SET_ALARM1, a short press of the "Set Alarm" physical
button, after all its short-press listeners have run in registration order,
leaves the device state equal to IDLE, not SET_ALARM2: pressSetAlarm first
advances to SET_ALARM2, but pressSetClock — registered on the same button at
line 138 — then sees a state other than SET_CLOCK1 and its catch-all else
sets IDLE. -/
theorem set_alarm1_press_ends_idle (s : Sys) (h : s.ca.state = DeviceState.SET_ALARM1) :
    (pressSetAlarm (pressButton s)).ca.state = DeviceState.SET_ALARM2 ∧
      (step (.shortPress .SET_ALARM) s).ca.state = DeviceState.IDLE := by
  constructor
  · simp [pressSetAlarm_state, pressButton_ca, h]
  · exact dispatchShort_SET_ALARM_state s

/-- C4 amended witness: the SET_ALARM1 scenario at start-up values. -/
theorem set_alarm1_press_ends_idle_witness :
    (sampleAt .SET_ALARM1).ca.state = DeviceState.SET_ALARM1 ∧
      ((pressSetAlarm (pressButton (sampleAt .SET_ALARM1))).ca.state =
          DeviceState.SET_ALARM2 ∧
        (step (.shortPress .SET_ALARM) (sampleAt .SET_ALARM1)).ca.state =
          DeviceState.IDLE) :=
  ⟨by decide, set_alarm1_press_ends_idle (sampleAt .SET_ALARM1) (by decide)⟩

/-- C5 counterexample: from IDLE, a long press of the shared physical button
does not end in SET_CLOCK1. -/
theorem idle_long_press_not_set_clock1 :
    (step (.longPress .SET_ALARM) (sampleAt .IDLE)).ca.state ≠
      DeviceState.SET_CLOCK1 := by
  decide

/-- C5 amended: from IDLE, a long press of the shared physical button, after
both long-press listeners have run in registration order, results in
SET_ALARM1, not SET_CLOCK1: longSetAlarm (registered first, line 145) moves
IDLE to SET_ALARM1, after which longSetClock's IDLE guard is false. -/
theorem idle_long_press_ends_set_alarm1 (s : Sys) (h : s.ca.state = DeviceState.IDLE) :
    (step (.longPress .SET_ALARM) s).ca.state = DeviceState.SET_ALARM1 := by
  have hc := dispatchLong_SET_ALARM_state s
  rw [h] at hc
  simpa [step] using hc

/-- C5 amended witness: the IDLE scenario at start-up values. -/
theorem idle_long_press_ends_set_alarm1_witness :
    (sampleAt .IDLE).ca.state = DeviceState.IDLE ∧
      (step (.longPress .SET_ALARM) (sampleAt .IDLE)).ca.state =
        DeviceState.SET_ALARM1 :=
  ⟨by decide, idle_long_press_ends_set_alarm1 (sampleAt .IDLE) (by decide)⟩

/-- C6: the claim says that while RINGing each buzzer-countdown expiry
alternates the pulse source between enabled and disabled indefinitely.  The
code cannot alternate: line 213 `buzzer_state != buzzer_state;` is a
comparison whose result is discarded, so buzzer_state keeps its start-up
value false on every reachable state (first conjunct), and every expiry while
RINGing with buzzer_state false takes the stop branch — the pulse source is
disarmed, buzzer_state stays false and the countdown restarts, so the buzzer
is silent in every phase and is never re-enabled (second conjunct). -/
theorem ring_expiry_never_alternates :
    (∀ evs : List Event, (run evs initSys).buzzer_state = false) ∧
    (∀ s : Sys, s.ca.state = DeviceState.RING → s.buzzer_state = false →
      s.buzzer_counter = 0 →
      (isrTimer0Ovf s).buzzerArmed = false ∧
        (isrTimer0Ovf s).buzzer_state = false ∧
        (isrTimer0Ovf s).buzzer_counter = N_BUZZER_LONG) := by
  constructor
  · intro evs
    rw [run_bs]
    rfl
  · intro s h1 h2 h3
    simp only [isrTimer0Ovf]
    split_ifs <;> simp_all [stopBuzzer, BUZZER_OFF, BACKLIGHT_OFF]

/-- C6 witness: a RINGing state whose countdown just expired, with the pulse
source still armed; the expiry disarms it and does not toggle the phase. -/
theorem ring_expiry_never_alternates_witness :
    (sampleRingExpiry.ca.state = DeviceState.RING ∧
      sampleRingExpiry.buzzer_state = false ∧ sampleRingExpiry.buzzer_counter = 0) ∧
    ((isrTimer0Ovf sampleRingExpiry).buzzerArmed = false ∧
      (isrTimer0Ovf sampleRingExpiry).buzzer_state = false ∧
      (isrTimer0Ovf sampleRingExpiry).buzzer_counter = N_BUZZER_LONG) :=
  ⟨by decide,
    ring_expiry_never_alternates.2 sampleRingExpiry (by decide) (by decide) (by decide)⟩

/-- C7: from RING with snoozed false, a "Snooze" short press sets snoozed,
sets Snooze to Alarm plus 5 minutes and returns to IDLE; from RING with
snoozed already true it adds 5 more minutes to Snooze, leaving Alarm
untouched in both cases (pressSnooze, lines 375–391; the generic pressButton
listener that also fires touches only backlight and buzzer). -/
theorem snooze_press_behavior (s : Sys) :
    (s.ca.state = DeviceState.RING → s.ca.snoozed = false →
      ((step (.shortPress .SNOOZE) s).ca.snoozed = true ∧
        (step (.shortPress .SNOOZE) s).ca.snooze = s.ca.alarm.setMin 5 ∧
        (step (.shortPress .SNOOZE) s).ca.state = DeviceState.IDLE ∧
        (step (.shortPress .SNOOZE) s).ca.alarm = s.ca.alarm)) ∧
    (s.ca.state = DeviceState.RING → s.ca.snoozed = true →
      ((step (.shortPress .SNOOZE) s).ca.snooze = s.ca.snooze.setMin 5 ∧
        (step (.shortPress .SNOOZE) s).ca.alarm = s.ca.alarm ∧
        (step (.shortPress .SNOOZE) s).ca.state = DeviceState.IDLE)) := by
  have hca := pressButton_ca s
  constructor
  · intro h1 h2
    simp [step, dispatchShort, pressSnooze, hca, h1, h2, TimeValue.sync]
  · intro h1 h2
    simp [step, dispatchShort, pressSnooze, hca, h1, h2]

/-- C7 witness: a first snooze at Alarm 06:30:00 yields Snooze 06:35:00, and
a repeated snooze at Snooze 06:35:00 yields 06:40:00. -/
theorem snooze_press_behavior_witness :
    ((sampleRingFresh.ca.state = DeviceState.RING ∧ sampleRingFresh.ca.snoozed = false) ∧
      ((step (.shortPress .SNOOZE) sampleRingFresh).ca.snoozed = true ∧
        (step (.shortPress .SNOOZE) sampleRingFresh).ca.snooze =
          sampleRingFresh.ca.alarm.setMin 5 ∧
        (step (.shortPress .SNOOZE) sampleRingFresh).ca.state = DeviceState.IDLE ∧
        (step (.shortPress .SNOOZE) sampleRingFresh).ca.alarm =
          sampleRingFresh.ca.alarm)) ∧
    ((sampleRingSnoozed.ca.state = DeviceState.RING ∧
        sampleRingSnoozed.ca.snoozed = true) ∧
      ((step (.shortPress .SNOOZE) sampleRingSnoozed).ca.snooze =
          sampleRingSnoozed.ca.snooze.setMin 5 ∧
        (step (.shortPress .SNOOZE) sampleRingSnoozed).ca.alarm =
          sampleRingSnoozed.ca.alarm ∧
        (step (.shortPress .SNOOZE) sampleRingSnoozed).ca.state = DeviceState.IDLE)) :=
  ⟨⟨by decide, (snooze_press_behavior sampleRingFresh).1 (by decide) (by decide)⟩,
    ⟨by decide, (snooze_press_behavior sampleRingSnoozed).2 (by decide) (by decide)⟩⟩

/-- C8: startBuzzer's contract (lines 397–410): while RINGing a strictly
positive countdown is left alone; while RINGing an exhausted countdown is set
to the long duration; outside RING it is set to the short duration; and the
buzzer-pulse interrupt source is armed in every case. -/
theorem startBuzzer_contract (s : Sys) :
    (s.ca.state = DeviceState.RING → 0 < s.buzzer_counter →
      (startBuzzer s).buzzer_counter = s.buzzer_counter) ∧
    (s.ca.state = DeviceState.RING → s.buzzer_counter ≤ 0 →
      (startBuzzer s).buzzer_counter = N_BUZZER_LONG) ∧
    (s.ca.state ≠ DeviceState.RING →
      (startBuzzer s).buzzer_counter = N_BUZZER_SHORT) ∧
    (startBuzzer s).buzzerArmed = true := by
  refine ⟨?_, ?_, ?_, startBuzzer_armed s⟩
  · intro h1 h2
    unfold startBuzzer
    split_ifs with hc
    · exfalso
      omega
    · rfl
  · intro h1 h2
    unfold startBuzzer
    split_ifs
    rfl
  · intro h1
    unfold startBuzzer
    split_ifs with hr hc
    · exact absurd hr h1
    · exact absurd hr h1
    · rfl

/-- C8 witness: the three branches at concrete states (RING with countdown 7,
RING with countdown 0, IDLE), plus arming. -/
theorem startBuzzer_contract_witness :
    ((sampleAt .RING).ca.state = DeviceState.RING ∧
      (0 : Int) < { sampleAt .RING with buzzer_counter := 7 }.buzzer_counter ∧
      (startBuzzer { sampleAt .RING with buzzer_counter := 7 }).buzzer_counter =
        { sampleAt .RING with buzzer_counter := 7 }.buzzer_counter) ∧
    ({ sampleAt .RING with buzzer_counter := 0 }.buzzer_counter ≤ 0 ∧
      (startBuzzer { sampleAt .RING with buzzer_counter := 0 }).buzzer_counter =
        N_BUZZER_LONG) ∧
    ((sampleAt .IDLE).ca.state ≠ DeviceState.RING ∧
      (startBuzzer (sampleAt .IDLE)).buzzer_counter = N_BUZZER_SHORT) ∧
    (startBuzzer (sampleAt .IDLE)).buzzerArmed = true :=
  ⟨⟨by decide, by decide,
      (startBuzzer_contract { sampleAt .RING with buzzer_counter := 7 }).1
        (by decide) (by decide)⟩,
    ⟨by decide,
      (startBuzzer_contract { sampleAt .RING with buzzer_counter := 0 }).2.1
        (by decide) (by decide)⟩,
    ⟨by decide, (startBuzzer_contract (sampleAt .IDLE)).2.2.1 (by decide)⟩,
    (startBuzzer_contract (sampleAt .IDLE)).2.2.2⟩

/-- C9: from the start-up state, no finite trace of button events, switch
observations and periodic ticks ever reaches SET_CLOCK1 or SET_CLOCK2: the
only writer of SET_CLOCK1 (longSetClock) requires IDLE, but longSetAlarm runs
first on the same button's long press and moves IDLE to SET_ALARM1, and the
only writer of SET_CLOCK2 (pressSetClock) requires SET_CLOCK1 at its turn. -/
theorem set_clock_states_unreachable (evs : List Event) :
    (run evs initSys).ca.state ≠ DeviceState.SET_CLOCK1 ∧
      (run evs initSys).ca.state ≠ DeviceState.SET_CLOCK2 :=
  run_keeps_off_set_clock evs initSys (by decide) (by decide)

/-- C10: the 1-second tick handler with the switch on overwrites the device
state with IDLE at line 236's assignment-guard before any alarm or snooze
comparison can be evaluated (the guard's value, IDLE's enumerator 0, is
false, so the comparison body is dead); hence the state after the handler is
always in {IDLE, RING} — in fact always IDLE — and every editing state is
discarded at the next second boundary while the switch is on. -/
theorem tick_switch_on_forces_idle (s : Sys) :
    (isrTimer1Compa true s).ca.state = DeviceState.IDLE ∧
      ((isrTimer1Compa true s).ca.state = DeviceState.IDLE ∨
        (isrTimer1Compa true s).ca.state = DeviceState.RING) := by
  have h := isrTimer1Compa_true_eq s
  constructor <;> simp [h]

end CodAlarm
